import Mathlib

/-!
Shallow embedding of the `@astronautlabs/datastore` Firestore bindings
(`datastore.firestore-browser.ts` and the server variant
`datastore.firestore-node.ts`).  Documents are association lists of
field/value pairs, the store state is an association list of path/document
pairs plus a fresh-id counter, and the backend client collaborator is an
environment of oracles saying which backend primitives fail (and with which
backend error code) at which path.  Every operation returns an `Outcome`:
an `Except` result (`Except.error` models a rejected promise carrying the
thrown error object), the store state after the call, and the list of
diagnostic log records the operation emitted via its catch blocks.
-/

namespace Datastore

/-- A field value of a stored document (enough structure for the claims). -/
inductive Value where
  | str (s : String)
  | num (n : Int)
deriving DecidableEq, Repr

/-- A JavaScript object as passed to / stored by the backend: an ordered
association list of field names to values (insertion order preserved,
as Firestore serialization does). -/
abbrev Obj := List (String × Value)

/-- Replace-or-append assignment in an association list (the effect of
`o[k] = v` on a JS object, and of writing a document at a path). -/
def assocSet {β : Type} (l : List (String × β)) (k : String) (v : β) : List (String × β) :=
  match l with
  | [] => [(k, v)]
  | kv :: rest => if kv.1 = k then (k, v) :: rest else kv :: assocSet rest k v

/-- Association-list lookup. -/
def assocGet {β : Type} (l : List (String × β)) (k : String) : Option β :=
  match l with
  | [] => none
  | kv :: rest => if kv.1 = k then some kv.2 else assocGet rest k

/-- Field read on an object (`o.k`, `undefined` modelled as `none`). -/
def Obj.get (o : Obj) (k : String) : Option Value :=
  assocGet o k

/-- Field write on an object (`o.k = v`, e.g. `data.id = docRef.id`). -/
def Obj.set (o : Obj) (k : String) (v : Value) : Obj :=
  assocSet o k v

/-- Path split on the slash separator: auxiliary over characters. -/
def segmentsAux : List Char → List Char → List String
  | [], acc => [String.mk acc.reverse]
  | c :: rest, acc =>
    if c = '/' then String.mk acc.reverse :: segmentsAux rest []
    else segmentsAux rest (c :: acc)

/-- Segments of a slash-delimited document/collection path. -/
def pathSegments (p : String) : List String :=
  segmentsAux p.data []

/-- `docRef.id` of the backend collaborator: the final segment of the
document path the reference was created from. -/
def docId (p : String) : String :=
  (pathSegments p).reverse.headD ""

/-- `key.replace(/:id/g, idv)`: global, non-overlapping left-to-right
replacement of the placeholder token in a mirror key template. -/
def substChars : List Char → String → List Char
  | [], _ => []
  | ':' :: 'i' :: 'd' :: rest, idv => idv.data ++ substChars rest idv
  | c :: rest, idv => c :: substChars rest idv

/-- Substitute a document id for every `:id` placeholder in a template. -/
def substId (tmpl : String) (idv : String) : String :=
  String.mk (substChars tmpl.data idv)

/-- True when `p` addresses a document directly inside collection `cp`. -/
def isDirectChild (cp : String) (p : String) : Bool :=
  (pathSegments p).dropLast = pathSegments cp && (pathSegments p).length = (pathSegments cp).length + 1

/-- Store state: the committed documents by path, plus the backend client
fresh-id counter feeding auto-generated document ids. -/
structure St where
  docs : List (String × Obj)
  nextId : Nat
deriving DecidableEq, Repr

/-- Committed document at a path (`snapshot.data()`, `none` = absent). -/
def St.lookup (st : St) (p : String) : Option Obj :=
  assocGet st.docs p

/-- Commit a single document write. -/
def St.write (st : St) (p : String) (o : Obj) : St :=
  ⟨assocSet st.docs p o, st.nextId⟩

/-- Thrown error values of this layer.  `backend c` is an error object
surfaced by the backend client (the opaque code `c` identifies the object,
so rethrowing the very same `c` models rethrowing the original error
unchanged); `noSuchObject pk` is the explicit
`new Error("No such object " + primaryKey)` thrown by the mirror
operations when the primary document does not exist — the error the spec
taxonomy names `NotFoundError`. -/
inductive Err where
  | backend (code : Nat)
  | noSuchObject (primaryKey : String)
deriving DecidableEq, Repr

/-- One diagnostic record emitted by a catch block before rethrowing:
the operation name, the path it was working on, and the payload being
written when the source logs one. -/
structure LogEntry where
  op : String
  path : String
  payload : Option Obj
deriving DecidableEq, Repr

/-- The backend client collaborator: which primitive fails with which
backend error code at which path, and the auto-id generator.  `none`
means the primitive succeeds there. -/
structure Env where
  setErr : String → Option Nat
  updateErr : String → Option Nat
  deleteErr : String → Option Nat
  getErr : String → Option Nat
  addErr : String → Option Nat
  queryGetErr : String → Option Nat
  genId : Nat → String

/-- Decidable equality of settled promise results. -/
instance exceptDecEq {ε α : Type} [DecidableEq ε] [DecidableEq α] : DecidableEq (Except ε α) :=
  fun a b =>
    match a, b with
    | Except.error e, Except.error f =>
      if h : e = f then Decidable.isTrue (congrArg Except.error h)
      else Decidable.isFalse (fun q => h (Except.error.inj q))
    | Except.ok x, Except.ok y =>
      if h : x = y then Decidable.isTrue (congrArg Except.ok h)
      else Decidable.isFalse (fun q => h (Except.ok.inj q))
    | Except.error _, Except.ok _ => Decidable.isFalse (fun q => Except.noConfusion q)
    | Except.ok _, Except.error _ => Decidable.isFalse (fun q => Except.noConfusion q)

/-- Result of running an operation: the settled promise value (or the
thrown error), the store state afterwards, and the diagnostics logged. -/
structure Outcome (α : Type) where
  result : Except Err α
  st : St
  log : List LogEntry
deriving DecidableEq, Repr

/-- First failure among a list of paths under a failure oracle, in list
order (the deterministic stand-in for the first rejection seen by
`Promise.all` over the fan-out). -/
def firstErrAt (f : String → Option Nat) : List String → Option Nat
  | [] => none
  | p :: rest =>
    match f p with
    | some c => some c
    | none => firstErrAt f rest

/-- Join strings with a separator (`keys.join(", ")` in log messages). -/
def joinStrings (sep : String) : List String → String
  | [] => ""
  | [s] => s
  | s :: rest => s ++ sep ++ joinStrings sep rest

/-- `FbDataStore.set(docPath, data)`: `firestore.doc(docPath).set(data)`,
catch block logs via `handleError` and rethrows the original error. -/
def FbDataStore.set (env : Env) (st : St) (docPath : String) (data : Obj) : Outcome Unit :=
  match env.setErr docPath with
  | some c => ⟨Except.error (Err.backend c), st, [⟨"datastore.set", docPath, some data⟩]⟩
  | none => ⟨Except.ok (), st.write docPath data, []⟩

/-- `FbDataStore.create(collectionPath, data)`:
`docRef = await colRef.add(data)` stores the caller object verbatim
(including any caller-supplied `id` field) at a store-assigned path, then
`data.id = docRef.id` and the same object is returned. -/
def FbDataStore.create (env : Env) (st : St) (collectionPath : String) (data : Obj) : Outcome Obj :=
  match env.addErr collectionPath with
  | some c => ⟨Except.error (Err.backend c), st, [⟨"datastore.create", collectionPath, some data⟩]⟩
  | none =>
    let newId := env.genId st.nextId
    ⟨Except.ok (Obj.set data "id" (Value.str newId)),
      ⟨assocSet st.docs (collectionPath ++ "/" ++ newId) data, st.nextId + 1⟩, []⟩

/-- `FbDataStore.read(docPath)`: `snap = await docRef.get()`, then
`let t = snap.data(); if (t) t.id = docRef.id; return t`. -/
def FbDataStore.read (env : Env) (st : St) (docPath : String) : Outcome (Option Obj) :=
  match env.getErr docPath with
  | some c => ⟨Except.error (Err.backend c), st, [⟨"datastore.read", docPath, none⟩]⟩
  | none =>
    match st.lookup docPath with
    | none => ⟨Except.ok none, st, []⟩
    | some o => ⟨Except.ok (some (Obj.set o "id" (Value.str (docId docPath)))), st, []⟩

/-- Backend-side merge of a partial update into an existing document
(`set(data, merge true)`): fields of `d` overwrite, others untouched. -/
def mergeObj (old : Obj) (d : Obj) : Obj :=
  d.foldl (fun acc kv => Obj.set acc kv.1 kv.2) old

/-- `FbDataStore.update(docPath, data)`: merge-semantics partial write via
`docRef.set(data, merge)`; the catch logs the operation name and path
only (the source passes no payload to `handleError` here). -/
def FbDataStore.update (env : Env) (st : St) (docPath : String) (data : Obj) : Outcome Unit :=
  match env.updateErr docPath with
  | some c => ⟨Except.error (Err.backend c), st, [⟨"datastore.update", docPath, none⟩]⟩
  | none =>
    match st.lookup docPath with
    | none => ⟨Except.ok (), st.write docPath data, []⟩
    | some o => ⟨Except.ok (), st.write docPath (mergeObj o data), []⟩

/-- `FbDataStore.delete(docPath)`: `docRef.delete()`. -/
def FbDataStore.delete (env : Env) (st : St) (docPath : String) : Outcome Unit :=
  match env.deleteErr docPath with
  | some c => ⟨Except.error (Err.backend c), st, [⟨"datastore.delete", docPath, none⟩]⟩
  | none => ⟨Except.ok (), ⟨st.docs.filter (fun kv => decide (kv.1 ≠ docPath)), st.nextId⟩, []⟩

/-- The documents the backend returns for a plain query over collection
`cp` (each paired with its path). -/
def collectionDocs (st : St) (cp : String) : List (String × Obj) :=
  st.docs.filter (fun kv => isDirectChild cp kv.1)

/-- `FbDataStore.listAll(collectionPath)` result mapping: each snapshot
doc materialized as `Object.assign(\x7b\x7d, x.data(), \x7b id: x.id \x7d)` —
the stored fields with `id` merged in from the located document id. -/
def FbDataStore.listAll (env : Env) (st : St) (collectionPath : String) : Outcome (List Obj) :=
  match env.queryGetErr collectionPath with
  | some c => ⟨Except.error (Err.backend c), st, [⟨"datastore.listAll", collectionPath, none⟩]⟩
  | none =>
    ⟨Except.ok ((collectionDocs st collectionPath).map
        (fun kv => Obj.set kv.2 "id" (Value.str (docId kv.1)))), st, []⟩

/-- `FbQuery.get()`: `snapshot.docs.map(x => x.data())` — raw stored
data, no `id` merged in, and no catch block around the backend call. -/
def FbQuery.get (env : Env) (st : St) (collectionPath : String) : Outcome (List Obj) :=
  match env.queryGetErr collectionPath with
  | some c => ⟨Except.error (Err.backend c), st, []⟩
  | none => ⟨Except.ok ((collectionDocs st collectionPath).map (fun kv => kv.2)), st, []⟩

/-- Transaction handle state: the committed state the transaction reads
from, the staged writes in call order, and the fresh-id counter (document
references are reserved immediately, pre-commit). -/
structure TxnSt where
  base : St
  pending : List (String × Obj)
  nextId : Nat
deriving DecidableEq, Repr

/-- `FbTransaction.create(collectionPath, data)`: reserves a fresh
document reference (`collection(cp).doc()`), stages
`txn.set(docRef, data)` (the data is serialized at the set call, before
the id mutation), then `data.id = docRef.id` and the object is returned.
Staging itself does not contact the backend, so it cannot fail here; any
write failure surfaces at commit. -/
def FbTransaction.create (env : Env) (ts : TxnSt) (collectionPath : String) (data : Obj) :
    Obj × TxnSt :=
  let newId := env.genId ts.nextId
  (Obj.set data "id" (Value.str newId),
    ⟨ts.base, ts.pending ++ [(collectionPath ++ "/" ++ newId, data)], ts.nextId + 1⟩)

/-- `FbTransaction.set(docPath, data)`: stage one transactional write. -/
def FbTransaction.set (ts : TxnSt) (docPath : String) (data : Obj) : TxnSt :=
  ⟨ts.base, ts.pending ++ [(docPath, data)], ts.nextId⟩

/-- `FbTransaction.read(docPath)` (server variant, `part_000` lines
70-89): `snapshot = await this.txn.get(docRef); return snapshot.data()` —
the raw stored data, with no `id` field set from the path. -/
def FbTransaction.read (env : Env) (st : St) (docPath : String) : Outcome (Option Obj) :=
  match env.getErr docPath with
  | some c => ⟨Except.error (Err.backend c), st, [⟨"datastoreTransaction.read", docPath, none⟩]⟩
  | none => ⟨Except.ok (st.lookup docPath), st, []⟩

/-- `FbTransaction.readAll(docPaths)`: parallel `txn.get` fan-out,
`snapshots.map(x => x.data())` — order-preserving, no `id` set, no catch
block (`Promise.all` rejects with the first failing read's error). -/
def FbTransaction.readAll (env : Env) (st : St) (docPaths : List String) :
    Outcome (List (Option Obj)) :=
  match firstErrAt env.getErr docPaths with
  | some c => ⟨Except.error (Err.backend c), st, []⟩
  | none => ⟨Except.ok (docPaths.map st.lookup), st, []⟩

/-- Commit of `runTransaction`: all staged writes apply atomically, or —
if the backend rejects any staged write — none do and the transaction
rejects with that backend error. -/
def txnCommit (env : Env) (ts : TxnSt) : Except Err St :=
  match firstErrAt env.setErr (ts.pending.map (fun kv => kv.1)) with
  | some c => Except.error (Err.backend c)
  | none =>
    Except.ok ⟨ts.pending.foldl (fun d kv => assocSet d kv.1 kv.2) ts.base.docs, ts.nextId⟩

/-- `FbDataStore.mirrorInTransaction(txn, primaryKey, mirrorKeys, data?)`:
if `data` is omitted it is fetched with `txn.read(primaryKey)` (failure is
logged and the original error rethrown); a still-missing `data` raises the
no-such-object error; otherwise one `txn.set(key, data)` is staged per
mirror key. -/
def FbDataStore.mirrorInTransaction (env : Env) (ts : TxnSt) (primaryKey : String)
    (mirrorKeys : List String) (dataIn : Option Obj) : Except Err TxnSt × List LogEntry :=
  match dataIn with
  | some d =>
    (Except.ok (mirrorKeys.foldl (fun acc k => FbTransaction.set acc k d) ts), [])
  | none =>
    match env.getErr primaryKey with
    | some c =>
      (Except.error (Err.backend c),
        [⟨"datastoreTransaction.read", primaryKey, none⟩,
         ⟨"mirrorInTransaction.fetch", primaryKey, none⟩])
    | none =>
      match ts.base.lookup primaryKey with
      | none => (Except.error (Err.noSuchObject primaryKey), [])
      | some d =>
        (Except.ok (mirrorKeys.foldl (fun acc k => FbTransaction.set acc k d) ts), [])

/-- Fan-out of the non-transactional mirror writes: every mirror path
whose backend write succeeds is written, independent of its siblings
(parallel requests are not cancelled by a sibling failure). -/
def writeAllMirrors (env : Env) (st : St) (keys : List String) (d : Obj) : St :=
  keys.foldl
    (fun s k =>
      match env.setErr k with
      | some _ => s
      | none => s.write k d) st

/-- The write phase of `FbDataStore.mirror`:
`await Promise.all(mirrorRefs.map(ref => ref.set(data)))`; a failure is
logged (with the data being mirrored) and the original error rethrown,
after all sibling writes were issued. -/
def fbMirrorWrite (env : Env) (st : St) (primaryKey : String) (mirrorKeys : List String)
    (d : Obj) : Outcome Unit :=
  let st' := writeAllMirrors env st mirrorKeys d
  match firstErrAt env.setErr mirrorKeys with
  | some c => ⟨Except.error (Err.backend c), st', [⟨"mirror.write", primaryKey, some d⟩]⟩
  | none => ⟨Except.ok (), st', []⟩

/-- `FbDataStore.mirror(primaryKey, mirrorKeys, data?)`: if `data` is
omitted it is read non-transactionally from the primary
(`(await primaryRef.get()).data()`, failure logged and rethrown); if the
primary document does not exist the no-such-object error is thrown before
any mirror write; otherwise identical data is written to every mirror
path concurrently. -/
def FbDataStore.mirror (env : Env) (st : St) (primaryKey : String) (mirrorKeys : List String)
    (dataIn : Option Obj) : Outcome Unit :=
  match dataIn with
  | some d => fbMirrorWrite env st primaryKey mirrorKeys d
  | none =>
    match env.getErr primaryKey with
    | some c => ⟨Except.error (Err.backend c), st, [⟨"mirror.fetch", primaryKey, none⟩]⟩
    | none =>
      match st.lookup primaryKey with
      | none => ⟨Except.error (Err.noSuchObject primaryKey), st, []⟩
      | some d => fbMirrorWrite env st primaryKey mirrorKeys d

/-- The fan-out/fan-in state of `multiUpdate`: each path whose update
succeeds is merged into the store, independent of its siblings. -/
def applyUpdates (env : Env) (st : St) (docPaths : List String) (data : Obj) : St :=
  docPaths.foldl
    (fun s p =>
      match env.updateErr p with
      | some _ => s
      | none =>
        match s.lookup p with
        | none => s.write p data
        | some o => s.write p (mergeObj o data)) st

/-- `FbDataStore.multiUpdate(docPaths, data)`:
`await Promise.all(docPaths.map(path => this.update(path, data)))`; every
failing update logs its own diagnostic record (naming its path), the
outer catch logs the multi-update context and rethrows the first failing
update's original backend error; successful sibling updates stay
applied. -/
def FbDataStore.multiUpdate (env : Env) (st : St) (docPaths : List String) (data : Obj) :
    Outcome Unit :=
  let st' := applyUpdates env st docPaths data
  match firstErrAt env.updateErr docPaths with
  | some c =>
    ⟨Except.error (Err.backend c), st',
      (docPaths.filter (fun p => (env.updateErr p).isSome)).map
          (fun p => (⟨"datastore.update", p, none⟩ : LogEntry))
        ++ [⟨"multiUpdate", joinStrings ", " docPaths, some data⟩]⟩
  | none => ⟨Except.ok (), st', []⟩

/-- `record.id` as read by `createAndMirror` after a create. -/
def idOf (o : Obj) : String :=
  match Obj.get o "id" with
  | some (Value.str s) => s
  | _ => ""

/-- `FbDataStore.createAndMirror(collectionPath, data, mirrorKeys)`,
translated statement by statement from the source: first the transaction
(`txn.create` then `mirrorInTransaction` with the created record and the
`:id`-substituted mirror keys, committed atomically); then — after the
transaction has committed — the source repeats the work
non-transactionally: `record = await this.create(collectionPath, data)`
(a second document, created from the already-mutated `data` object, whose
`id` field now holds the first transaction's id), followed by
`this.mirror(...)` whose `data` argument is lost because `record` is
passed as the second argument of `Array.map` (the `thisArg`), so the
mirror re-reads the second primary non-transactionally and fans out the
writes outside any transaction. -/
def FbDataStore.createAndMirror (env : Env) (st : St) (collectionPath : String) (data : Obj)
    (mirrorKeys : List String) : Outcome Obj :=
  let ts0 : TxnSt := ⟨st, [], st.nextId⟩
  let step1 := FbTransaction.create env ts0 collectionPath data
  let record1 := step1.1
  let rid1 := idOf record1
  match FbDataStore.mirrorInTransaction env step1.2 (collectionPath ++ "/" ++ rid1)
      (mirrorKeys.map (fun k => substId k rid1)) (some record1) with
  | (Except.error e, lg1) => ⟨Except.error e, st, lg1⟩
  | (Except.ok ts2, lg1) =>
    match txnCommit env ts2 with
    | Except.error e => ⟨Except.error e, st, lg1⟩
    | Except.ok st1 =>
      match FbDataStore.create env st1 collectionPath record1 with
      | ⟨Except.error e, st2, lg2⟩ =>
        ⟨Except.error e, st2,
          lg1 ++ lg2 ++ [⟨"createAndMirror.create", collectionPath, some record1⟩]⟩
      | ⟨Except.ok record2, st2, lg2⟩ =>
        let rid2 := idOf record2
        match FbDataStore.mirror env st2 (collectionPath ++ "/" ++ rid2)
            (mirrorKeys.map (fun k => substId k rid2)) none with
        | ⟨Except.error e, st3, lg3⟩ => ⟨Except.error e, st3, lg1 ++ lg2 ++ lg3⟩
        | ⟨Except.ok _, st3, lg3⟩ => ⟨Except.ok record2, st3, lg1 ++ lg2 ++ lg3⟩

/-- The `order` entry of `CollectionParams`. -/
structure Order where
  field : String
  direction : String
deriving DecidableEq, Repr

/-- `CollectionParams`: optional ordering, limit and startAfter cursor
(`none` models an absent / `undefined` / `null` property). -/
structure CollectionParams where
  order : Option Order
  limit : Option Int
  startAfter : Option String
deriving DecidableEq, Repr

/-- The cursor argument handed to the backend `startAfter` primitive:
either the raw caller-supplied value or a document reference resolved
from it. -/
inductive Cursor where
  | value (v : String)
  | docRef (p : String)
deriving DecidableEq, Repr

/-- The backend query a `listAll` call builds before its final `get`:
which collection, and which `orderBy` / `limit` / `startAfter` calls were
chained with which arguments. -/
structure QueryDesc where
  collection : String
  orderBy : Option (String × String)
  limit : Option Int
  startAfter : Option Cursor
deriving DecidableEq, Repr

/-- JavaScript truthiness of an optional number (`0` is falsy). -/
def truthyInt : Option Int → Bool
  | none => false
  | some n => decide (n ≠ 0)

/-- JavaScript truthiness of an optional string (`""` is falsy). -/
def truthyStr : Option String → Bool
  | none => false
  | some s => decide (s ≠ "")

/-- The browser binding's `listAll` query construction
(`datastore.firestore-browser.ts` lines 259-275): `orderBy` when an order
is present, `limit` only when `params?.limit` is truthy (so a limit of 0
is skipped), `startAfter` with the raw caller value when truthy. -/
def browserListAllQuery (collectionPath : String) (params : Option CollectionParams) :
    QueryDesc :=
  ⟨collectionPath,
    (params.bind (fun p => p.order)).map (fun o => (o.field, o.direction)),
    if truthyInt (params.bind (fun p => p.limit)) then params.bind (fun p => p.limit) else none,
    if truthyStr (params.bind (fun p => p.startAfter)) then
      (params.bind (fun p => p.startAfter)).map Cursor.value
    else none⟩

/-- The server binding's `listAll` query construction (`part_000` lines
234-250): `orderBy` as in the browser, `limit` whenever the property is
neither `undefined` nor `null` (so a limit of 0 is applied), and
`startAfter` with `this.firestore.doc(params.startAfter)` — a document
reference, not the raw value. -/
def serverListAllQuery (collectionPath : String) (params : Option CollectionParams) :
    QueryDesc :=
  ⟨collectionPath,
    (params.bind (fun p => p.order)).map (fun o => (o.field, o.direction)),
    params.bind (fun p => p.limit),
    if truthyStr (params.bind (fun p => p.startAfter)) then
      (params.bind (fun p => p.startAfter)).map Cursor.docRef
    else none⟩

/-- State of one `lazyConnection` feed
(`publish().refCount()` over an inner `Observable` that creates a
`Subject`, subscribes the downstream observer to it, and calls
`options.start`): the consumer count held by `refCount`, whether the
backend listener is registered (`options.start` called, `options.stop`
not yet), and whether the subject-to-observer subscription is still
alive (the guard that decides if a late backend callback reaches any
consumer). -/
structure ConnSt where
  consumers : Nat
  active : Bool
  subjectLive : Bool
deriving DecidableEq, Repr

/-- Events of the single-threaded event loop acting on one feed: a
consumer subscribing, a consumer unsubscribing, or the backend listener
callback firing with a change notification. -/
inductive Ev where
  | subscribe
  | unsubscribe
  | notify (v : Nat)
deriving DecidableEq, Repr

/-- One event-loop step of a `lazyConnection` feed, returning the next
state and the values delivered to consumers during the step.  First
subscribe connects (fresh subject, observer subscription, then
`options.start`).  The teardown returned by the inner observable runs
`subscription.unsubscribe()` and then `options.stop()` synchronously
inside the last consumer's unsubscribe; an unsubscribe with no consumers
is a no-op.  A backend notification calls `subject.next`, which delivers
a value only while the subject subscription is alive. -/
def connStep (s : ConnSt) : Ev → ConnSt × List Nat
  | Ev.subscribe =>
    match s.consumers with
    | 0 => (⟨1, true, true⟩, [])
    | n + 1 => (⟨n + 2, s.active, s.subjectLive⟩, [])
  | Ev.unsubscribe =>
    match s.consumers with
    | 0 => (s, [])
    | 1 => (⟨0, false, false⟩, [])
    | n + 2 => (⟨n + 1, s.active, s.subjectLive⟩, [])
  | Ev.notify v =>
    if s.subjectLive then (s, [v]) else (s, [])

/-- Run a feed over a list of event-loop steps, collecting every value
delivered to consumers. -/
def connRun (s : ConnSt) : List Ev → List Nat
  | [] => []
  | e :: rest =>
    let step := connStep s e
    step.2 ++ connRun step.1 rest

/-- Looking up the key just written returns the written value. -/
theorem assocGet_assocSet {β : Type} (l : List (String × β)) (k : String) (v : β) :
    assocGet (assocSet l k v) k = some v := by
  induction l with
  | nil => simp [assocSet, assocGet]
  | cons kv rest ih =>
    by_cases h : kv.1 = k
    · simp [assocSet, assocGet, h]
    · simp [assocSet, assocGet, h, ih]

/-- Writing one key leaves every other key's binding unchanged. -/
theorem assocGet_assocSet_ne {β : Type} (l : List (String × β)) (k k' : String) (v : β)
    (h : k' ≠ k) :
    assocGet (assocSet l k v) k' = assocGet l k' := by
  have hkk : ¬(k = k') := fun q => h q.symm
  induction l with
  | nil => simp [assocSet, assocGet, hkk]
  | cons kv rest ih =>
    by_cases hk : kv.1 = k
    · simp [assocSet, assocGet, hk, hkk]
    · simp [assocSet, assocGet, hk, ih]

/-- Reading the field just set on an object yields the set value. -/
theorem Obj.get_set (o : Obj) (k : String) (v : Value) :
    Obj.get (Obj.set o k v) k = some v :=
  assocGet_assocSet o k v

/-- Setting one field of an object leaves every other field unchanged. -/
theorem Obj.get_set_ne (o : Obj) (k k' : String) (v : Value) (h : k' ≠ k) :
    Obj.get (Obj.set o k v) k' = Obj.get o k' :=
  assocGet_assocSet_ne o k k' v h

/-- A backend collaborator in which every primitive succeeds. -/
def noErr : String → Option Nat := fun _ => none

/-- A concrete auto-id generator for witness runs. -/
def genId2 : Nat → String := fun n => match n with | 0 => "doc0" | _ => "doc1"

/-- An all-success backend environment. -/
def env0 : Env := ⟨noErr, noErr, noErr, noErr, noErr, noErr, genId2⟩

/-- The empty initial store. -/
def st0 : St := ⟨[], 0⟩

/-- C2: calling `mirror` with `data` omitted when the primary document
does not exist (and the primary read itself succeeds) rejects with the
no-such-object error — the error the spec taxonomy calls `NotFoundError`,
realized in the source as `new Error("No such object " + primaryKey)` —
and performs zero writes to any mirror path: the store state is returned
unchanged. -/
theorem c2_mirror_missing_primary (env : Env) (st : St) (primaryKey : String)
    (mirrorKeys : List String) (_hne : mirrorKeys ≠ [])
    (hget : env.getErr primaryKey = none) (habs : st.lookup primaryKey = none) :
    FbDataStore.mirror env st primaryKey mirrorKeys none
      = ⟨Except.error (Err.noSuchObject primaryKey), st, []⟩ := by
  simp [FbDataStore.mirror, hget, habs]

/-- Witness for C2 at a concrete missing primary. -/
theorem c2_mirror_missing_primary_witness :
    FbDataStore.mirror env0 st0 "users/u9" ["m/1"] none
      = ⟨Except.error (Err.noSuchObject "users/u9"), st0, []⟩ :=
  c2_mirror_missing_primary env0 st0 "users/u9" ["m/1"] (by decide) rfl rfl

/-- Backend environment for C4: the update of path `a/2` is rejected by
the backend with error 5, every other primitive succeeds. -/
def updFailA2 : String → Option Nat := fun p => if p = "a/2" then some 5 else none

/-- Environment where only updates of `a/2` fail. -/
def env4 : Env := ⟨noErr, updFailA2, noErr, noErr, noErr, noErr, genId2⟩

/-- Initial store for C4. -/
def st4 : St := ⟨[("a/1", [("y", Value.num 2)]), ("a/2", [])], 0⟩

/-- C4 counterexample: `multiUpdate(["a/1","a/2"], record)` where `a/2`
fails with backend error 5.  The successful update of `a/1` stays
applied, but the call rejects with the original backend error object
(`Err.backend 5`) — the error type of the code has no partial-failure
aggregate carrying the failing paths; the failing path appears only in
the logged diagnostics. -/
theorem c4_multiUpdate_counterexample :
    FbDataStore.multiUpdate env4 st4 ["a/1", "a/2"] [("x", Value.num 1)]
      = ⟨Except.error (Err.backend 5),
         ⟨[("a/1", [("y", Value.num 2), ("x", Value.num 1)]), ("a/2", [])], 0⟩,
         [⟨"datastore.update", "a/2", none⟩,
          ⟨"multiUpdate", "a/1, a/2", some [("x", Value.num 1)]⟩]⟩ := by decide

/-- C4 amended: whenever some path of a `multiUpdate` fails, every
successful update stays applied (the final state is exactly the fan-out
of the successful merges), the call rejects with the original backend
error of the first failing update — not with a distinct partial-failure
error value — and the logged diagnostics contain one update record naming
each failing path. -/
theorem c4_multiUpdate_amended (env : Env) (st : St) (docPaths : List String) (data : Obj)
    (c : Nat) (h : firstErrAt env.updateErr docPaths = some c) :
    (FbDataStore.multiUpdate env st docPaths data).result = Except.error (Err.backend c)
  ∧ (FbDataStore.multiUpdate env st docPaths data).st = applyUpdates env st docPaths data
  ∧ ∀ p ∈ docPaths, (env.updateErr p).isSome = true →
      (⟨"datastore.update", p, none⟩ : LogEntry)
        ∈ (FbDataStore.multiUpdate env st docPaths data).log := by
  refine ⟨by simp [FbDataStore.multiUpdate, h], by simp [FbDataStore.multiUpdate, h], ?_⟩
  intro p hp hfail
  simp only [FbDataStore.multiUpdate, h]
  exact List.mem_append_left _
    (List.mem_map.2 ⟨p, List.mem_filter.2 ⟨hp, hfail⟩, rfl⟩)

/-- Witness for C4 amended at the two-path scenario. -/
theorem c4_multiUpdate_amended_witness :
    (FbDataStore.multiUpdate env4 st4 ["a/1", "a/2"] [("x", Value.num 1)]).result
        = Except.error (Err.backend 5)
  ∧ St.lookup (FbDataStore.multiUpdate env4 st4 ["a/1", "a/2"] [("x", Value.num 1)]).st "a/1"
        = some [("y", Value.num 2), ("x", Value.num 1)]
  ∧ (⟨"datastore.update", "a/2", none⟩ : LogEntry)
        ∈ (FbDataStore.multiUpdate env4 st4 ["a/1", "a/2"] [("x", Value.num 1)]).log := by
  have h := c4_multiUpdate_amended env4 st4 ["a/1", "a/2"] [("x", Value.num 1)] 5 (by decide)
  exact ⟨h.1, by decide, h.2.2 "a/2" (by decide) (by decide)⟩

/-- Initial store for C5: one document at `users/u1` that has no `id`
field stored. -/
def stC5 : St := ⟨[("users/u1", [("name", Value.str "A")])], 0⟩

/-- C5 counterexample: a transaction read and a query get of a document
located at `users/u1` return the stored data with no `id` field — the
returned documents do not have `id` set to the located path's final
segment `u1`, contradicting the claim that every read operation sets
`id`. -/
theorem c5_reads_counterexample :
    (FbTransaction.read env0 stC5 "users/u1").result = Except.ok (some [("name", Value.str "A")])
  ∧ (FbQuery.get env0 stC5 "users").result = Except.ok [[("name", Value.str "A")]]
  ∧ Obj.get [("name", Value.str "A")] "id" = none
  ∧ docId "users/u1" = "u1" := by decide

/-- C5 amended: the facade `read` and `listAll` set the returned
document's `id` to the final segment of its located path; the transaction
`read`, transaction `readAll` and query `get` return the snapshot data
exactly as stored, without setting `id`. -/
theorem c5_reads_amended (env : Env) (st : St) (p : String) (o : Obj) (cp : String)
    (h1 : env.getErr p = none) (h2 : st.lookup p = some o) (h3 : env.queryGetErr cp = none) :
    FbDataStore.read env st p
        = ⟨Except.ok (some (Obj.set o "id" (Value.str (docId p)))), st, []⟩
  ∧ Obj.get (Obj.set o "id" (Value.str (docId p))) "id" = some (Value.str (docId p))
  ∧ FbTransaction.read env st p = ⟨Except.ok (some o), st, []⟩
  ∧ (∃ rs, (FbDataStore.listAll env st cp).result = Except.ok rs ∧
        ∀ r ∈ rs, ∃ q ∈ collectionDocs st cp,
          r = Obj.set q.2 "id" (Value.str (docId q.1)) ∧
          Obj.get r "id" = some (Value.str (docId q.1)))
  ∧ (FbQuery.get env st cp).result = Except.ok ((collectionDocs st cp).map (fun kv => kv.2))
  ∧ (∀ ps2, firstErrAt env.getErr ps2 = none →
        FbTransaction.readAll env st ps2 = ⟨Except.ok (ps2.map st.lookup), st, []⟩) := by
  refine ⟨by simp [FbDataStore.read, h1, h2], Obj.get_set o "id" _,
    by simp [FbTransaction.read, h1, h2], ?_, by simp [FbQuery.get, h3],
    fun ps2 hps => by simp [FbTransaction.readAll, hps]⟩
  refine ⟨(collectionDocs st cp).map (fun kv => Obj.set kv.2 "id" (Value.str (docId kv.1))),
    by simp [FbDataStore.listAll, h3], ?_⟩
  intro r hr
  rcases List.mem_map.1 hr with ⟨q, hq, rfl⟩
  exact ⟨q, hq, rfl, Obj.get_set _ _ _⟩

/-- Witness for C5 amended at the concrete store. -/
theorem c5_reads_amended_witness :
    FbDataStore.read env0 stC5 "users/u1"
        = ⟨Except.ok (some (Obj.set [("name", Value.str "A")] "id"
            (Value.str (docId "users/u1")))), stC5, []⟩
  ∧ FbTransaction.read env0 stC5 "users/u1"
        = ⟨Except.ok (some [("name", Value.str "A")]), stC5, []⟩ := by
  have h := c5_reads_amended env0 stC5 "users/u1" [("name", Value.str "A")] "users" rfl rfl rfl
  exact ⟨h.1, h.2.2.1⟩

/-- C9 counterexample: `create("users", record)` where the caller supplied
an `id` field (`"evil"`).  The document is stored under the
backend-assigned path `users/doc0`, but the stored document is the
caller's object verbatim — the caller-supplied `id` field `"evil"` is
part of the stored document, contradicting the claim that a
caller-supplied id never becomes part of the stored document. -/
theorem c9_create_id_counterexample :
    St.lookup (FbDataStore.create env0 st0 "users" [("id", Value.str "evil")]).st "users/doc0"
        = some [("id", Value.str "evil")]
  ∧ (FbDataStore.create env0 st0 "users" [("id", Value.str "evil")]).result
        = Except.ok [("id", Value.str "doc0")] := by decide

/-- C9 amended: for every create (facade or transactional), the id under
which the document is stored — its path identity — is the store's
generator output, never taken from the input data (the binding is at
`cp ++ "/" ++ env.genId st.nextId` for every input object); however the
input object is stored verbatim, so a caller-supplied `id` field does end
up inside the stored document. -/
theorem c9_create_id_amended (env : Env) (st : St) (ts : TxnSt) (cp : String) (data : Obj)
    (h : env.addErr cp = none) :
    (FbDataStore.create env st cp data).result
        = Except.ok (Obj.set data "id" (Value.str (env.genId st.nextId)))
  ∧ St.lookup (FbDataStore.create env st cp data).st (cp ++ "/" ++ env.genId st.nextId)
        = some data
  ∧ (FbTransaction.create env ts cp data).1 = Obj.set data "id" (Value.str (env.genId ts.nextId))
  ∧ (FbTransaction.create env ts cp data).2.pending
        = ts.pending ++ [(cp ++ "/" ++ env.genId ts.nextId, data)] := by
  refine ⟨?_, ?_, rfl, rfl⟩
  · simp [FbDataStore.create, h]
  · simp [FbDataStore.create, h, St.lookup, assocGet_assocSet]

/-- Witness for C9 amended at a concrete caller-supplied id. -/
theorem c9_create_id_amended_witness :
    (FbDataStore.create env0 st0 "users" [("id", Value.str "evil")]).result
        = Except.ok (Obj.set [("id", Value.str "evil")] "id" (Value.str (env0.genId st0.nextId)))
  ∧ St.lookup (FbDataStore.create env0 st0 "users" [("id", Value.str "evil")]).st
        ("users" ++ "/" ++ env0.genId st0.nextId) = some [("id", Value.str "evil")] := by
  have h := c9_create_id_amended env0 st0 ⟨st0, [], 0⟩ "users" [("id", Value.str "evil")] rfl
  exact ⟨h.1, h.2.1⟩

/-- C10: a successful create (facade or transactional) returns the
caller's record with only its `id` field changed — set to the
backend-assigned id — and every other field unchanged.  (The source
mutates the caller's object in place, `data.id = docRef.id; return data`;
the value-level content of that mutation is the equation proved here.) -/
theorem c10_create_in_place (env : Env) (st : St) (ts : TxnSt) (cp : String) (data : Obj)
    (h : env.addErr cp = none) :
    (FbDataStore.create env st cp data).result
        = Except.ok (Obj.set data "id" (Value.str (env.genId st.nextId)))
  ∧ Obj.get (Obj.set data "id" (Value.str (env.genId st.nextId))) "id"
        = some (Value.str (env.genId st.nextId))
  ∧ (∀ k, k ≠ "id" →
        Obj.get (Obj.set data "id" (Value.str (env.genId st.nextId))) k = Obj.get data k)
  ∧ (FbTransaction.create env ts cp data).1 = Obj.set data "id" (Value.str (env.genId ts.nextId))
  ∧ (∀ k, k ≠ "id" →
        Obj.get ((FbTransaction.create env ts cp data).1) k = Obj.get data k) := by
  refine ⟨by simp [FbDataStore.create, h], Obj.get_set _ _ _,
    fun k hk => Obj.get_set_ne _ _ _ _ hk, rfl,
    fun k hk => Obj.get_set_ne _ _ _ _ hk⟩

/-- Witness for C10 at a concrete record. -/
theorem c10_create_in_place_witness :
    (FbDataStore.create env0 st0 "users" [("name", Value.str "A")]).result
        = Except.ok (Obj.set [("name", Value.str "A")] "id" (Value.str (env0.genId st0.nextId)))
  ∧ Obj.get (Obj.set [("name", Value.str "A")] "id" (Value.str (env0.genId st0.nextId))) "name"
        = Obj.get [("name", Value.str "A")] "name" := by
  have h := c10_create_in_place env0 st0 ⟨st0, [], 0⟩ "users" [("name", Value.str "A")] rfl
  exact ⟨h.1, h.2.2.1 "name" (by decide)⟩

/-- C6: every catch block of the modelled CRUD and composite operations
(set, create, read, update, delete, listAll, mirror fetch, mirror write,
multiUpdate) logs a diagnostic record carrying the operation name, the
path, and the payload where the source logs one, and then rethrows the
original backend error object unchanged (`Err.backend c` with the very
same code the backend raised) — never a wrapped or substituted error,
never a suppressed error or a default value. -/
theorem c6_error_propagation (env : Env) (st : St) (p cp pk : String) (d : Obj)
    (keys ps : List String) (c : Nat) :
    (env.setErr p = some c →
      FbDataStore.set env st p d
        = ⟨Except.error (Err.backend c), st, [⟨"datastore.set", p, some d⟩]⟩)
  ∧ (env.addErr cp = some c →
      FbDataStore.create env st cp d
        = ⟨Except.error (Err.backend c), st, [⟨"datastore.create", cp, some d⟩]⟩)
  ∧ (env.getErr p = some c →
      FbDataStore.read env st p
        = ⟨Except.error (Err.backend c), st, [⟨"datastore.read", p, none⟩]⟩)
  ∧ (env.updateErr p = some c →
      FbDataStore.update env st p d
        = ⟨Except.error (Err.backend c), st, [⟨"datastore.update", p, none⟩]⟩)
  ∧ (env.deleteErr p = some c →
      FbDataStore.delete env st p
        = ⟨Except.error (Err.backend c), st, [⟨"datastore.delete", p, none⟩]⟩)
  ∧ (env.queryGetErr cp = some c →
      FbDataStore.listAll env st cp
        = ⟨Except.error (Err.backend c), st, [⟨"datastore.listAll", cp, none⟩]⟩)
  ∧ (env.getErr pk = some c →
      FbDataStore.mirror env st pk keys none
        = ⟨Except.error (Err.backend c), st, [⟨"mirror.fetch", pk, none⟩]⟩)
  ∧ (firstErrAt env.setErr keys = some c →
      FbDataStore.mirror env st pk keys (some d)
        = ⟨Except.error (Err.backend c), writeAllMirrors env st keys d,
           [⟨"mirror.write", pk, some d⟩]⟩)
  ∧ (firstErrAt env.updateErr ps = some c →
      (FbDataStore.multiUpdate env st ps d).result = Except.error (Err.backend c)) := by
  refine ⟨fun h => ?_, fun h => ?_, fun h => ?_, fun h => ?_, fun h => ?_, fun h => ?_,
    fun h => ?_, fun h => ?_, fun h => ?_⟩ <;>
    simp [FbDataStore.set, FbDataStore.create, FbDataStore.read, FbDataStore.update,
      FbDataStore.delete, FbDataStore.listAll, FbDataStore.mirror, fbMirrorWrite,
      FbDataStore.multiUpdate, h]

/-- A backend environment in which every primitive fails with the same
original error object (code 3). -/
def envAll3 : Env :=
  ⟨fun _ => some 3, fun _ => some 3, fun _ => some 3, fun _ => some 3,
   fun _ => some 3, fun _ => some 3, genId2⟩

/-- Witness for C6 at a concrete failing backend. -/
theorem c6_error_propagation_witness :
    FbDataStore.set envAll3 st0 "a/1" [("x", Value.num 1)]
        = ⟨Except.error (Err.backend 3), st0, [⟨"datastore.set", "a/1", some [("x", Value.num 1)]⟩]⟩
  ∧ FbDataStore.read envAll3 st0 "a/1"
        = ⟨Except.error (Err.backend 3), st0, [⟨"datastore.read", "a/1", none⟩]⟩
  ∧ (FbDataStore.multiUpdate envAll3 st0 ["a/1"] [("x", Value.num 1)]).result
        = Except.error (Err.backend 3) := by
  have h := c6_error_propagation envAll3 st0 "a/1" "a" "p/1" [("x", Value.num 1)] ["m/1"] ["a/1"] 3
  exact ⟨h.1 rfl, h.2.2.1 rfl, h.2.2.2.2.2.2.2.2 (by decide)⟩

/-- Once the feed is torn down (subject subscription dead, no consumers),
no later event short of a fresh subscribe delivers any value. -/
theorem conn_dead_silent (evs : List Ev) : ∀ s : ConnSt, s.subjectLive = false →
    s.consumers = 0 → (∀ e ∈ evs, e ≠ Ev.subscribe) → connRun s evs = [] := by
  induction evs with
  | nil => intro s _ _ _; rfl
  | cons e rest ih =>
    intro s h1 h2 h3
    obtain ⟨cns, act, lv⟩ := s
    simp only at h1 h2
    subst h1; subst h2
    cases e with
    | subscribe => exact absurd rfl (h3 Ev.subscribe (List.mem_cons_self _ _))
    | unsubscribe =>
      show connRun ⟨0, act, false⟩ (Ev.unsubscribe :: rest) = []
      simp only [connRun, connStep, List.nil_append]
      exact ih ⟨0, act, false⟩ rfl rfl (fun e he => h3 e (List.mem_cons_of_mem _ he))
    | notify v =>
      show connRun ⟨0, act, false⟩ (Ev.notify v :: rest) = []
      simp only [connRun, connStep, Bool.false_eq_true, if_false, List.nil_append]
      exact ih ⟨0, act, false⟩ rfl rfl (fun e he => h3 e (List.mem_cons_of_mem _ he))

/-- C7: unsubscribing the last consumer of a `lazyConnection` feed tears
the backend listener down synchronously — in that very step the
subscription is dead and `options.stop` has run (`active = false`), and
the step itself delivers nothing — and from then on, for every run of
event-loop steps containing no fresh subscribe, no value is emitted to
any consumer, even when backend notification callbacks fire after the
teardown. -/
theorem c7_no_emission_after_unsubscribe (s : ConnSt) (evs : List Ev)
    (h1 : s.consumers = 1) (h2 : ∀ e ∈ evs, e ≠ Ev.subscribe) :
    (connStep s Ev.unsubscribe).1.active = false
  ∧ (connStep s Ev.unsubscribe).1.subjectLive = false
  ∧ (connStep s Ev.unsubscribe).2 = []
  ∧ connRun (connStep s Ev.unsubscribe).1 evs = [] := by
  obtain ⟨cns, act, lv⟩ := s
  simp only at h1
  subst h1
  exact ⟨rfl, rfl, rfl, conn_dead_silent evs ⟨0, false, false⟩ rfl rfl h2⟩

/-- Witness for C7: one active consumer unsubscribes, then two late
backend notifications and a redundant unsubscribe arrive — nothing is
emitted. -/
theorem c7_no_emission_after_unsubscribe_witness :
    (connStep ⟨1, true, true⟩ Ev.unsubscribe).1.active = false
  ∧ (connStep ⟨1, true, true⟩ Ev.unsubscribe).1.subjectLive = false
  ∧ (connStep ⟨1, true, true⟩ Ev.unsubscribe).2 = []
  ∧ connRun (connStep ⟨1, true, true⟩ Ev.unsubscribe).1
      [Ev.notify 5, Ev.unsubscribe, Ev.notify 7] = [] :=
  c7_no_emission_after_unsubscribe ⟨1, true, true⟩ [Ev.notify 5, Ev.unsubscribe, Ev.notify 7]
    rfl (by decide)

/-- C8 counterexample: the two bindings do not issue the same backend
operations for `listAll`.  With `limit = 0` the browser binding skips the
`limit` call (falsy check) while the server binding issues `limit(0)`;
with a `startAfter` cursor the browser passes the raw caller value while
the server resolves it to a document reference first. -/
theorem c8_listAll_counterexample :
    browserListAllQuery "a" (some ⟨none, some 0, none⟩)
        ≠ serverListAllQuery "a" (some ⟨none, some 0, none⟩)
  ∧ browserListAllQuery "a" (some ⟨none, none, some "a/1"⟩)
        ≠ serverListAllQuery "a" (some ⟨none, none, some "a/1"⟩) := by decide

/-- C8 amended: the two `listAll` implementations build the same backend
query whenever the params carry no `startAfter` cursor (or an empty one,
which both skip) and the limit is absent or nonzero; they diverge exactly
on a limit of 0 (browser skips, server applies) and on any present
`startAfter` (raw value vs. document reference). -/
theorem c8_listAll_amended (cp : String) (params : Option CollectionParams)
    (h1 : params.bind (fun p => p.limit) ≠ some 0)
    (h2 : params.bind (fun p => p.startAfter) = none
        ∨ params.bind (fun p => p.startAfter) = some "") :
    browserListAllQuery cp params = serverListAllQuery cp params := by
  have hlim : (if truthyInt (params.bind (fun p => p.limit)) then
      params.bind (fun p => p.limit) else none) = params.bind (fun p => p.limit) := by
    cases hl : params.bind (fun p => p.limit) with
    | none => simp [truthyInt]
    | some l =>
      have hz : l ≠ 0 := fun q => h1 (by rw [hl, q])
      simp [truthyInt, hz]
  have hsa : truthyStr (params.bind (fun p => p.startAfter)) = false := by
    rcases h2 with h | h <;> simp [truthyStr, h]
  unfold browserListAllQuery serverListAllQuery
  rw [hlim, hsa]
  simp

/-- Witness for C8 amended at concrete agreeing params. -/
theorem c8_listAll_amended_witness :
    browserListAllQuery "a" (some ⟨some ⟨"f", "asc"⟩, some 2, none⟩)
      = serverListAllQuery "a" (some ⟨some ⟨"f", "asc"⟩, some 2, none⟩) :=
  c8_listAll_amended "a" (some ⟨some ⟨"f", "asc"⟩, some 2, none⟩) (by decide) (Or.inl rfl)

/-- Backend environment for C1: the (post-transaction) mirror write to
`index/doc1` is rejected by the backend with error 7, every other
primitive succeeds. -/
def failIdx1 : String → Option Nat := fun p => if p = "index/doc1" then some 7 else none

/-- Environment where only writes to `index/doc1` fail. -/
def env1 : Env := ⟨failIdx1, noErr, noErr, noErr, noErr, noErr, genId2⟩

/-- C1 (code bug): `createAndMirror("users", record, ["index/:id"])` is
not one atomic transaction.  After the transaction commits (`users/doc0`
and `index/doc0`), the source repeats the create non-transactionally
(`users/doc1`) and then mirrors non-transactionally; with the backend
rejecting that second mirror write (error 7), the call rejects, yet the
primary document `users/doc1` created by the operation still exists —
and so does the whole transactional pair written earlier — so a failed
mirror write leaves created primaries behind, and state outside the
single transaction was written. -/
theorem c1_createAndMirror_not_atomic :
    (FbDataStore.createAndMirror env1 st0 "users" [("name", Value.str "A")] ["index/:id"]).result
        = Except.error (Err.backend 7)
  ∧ St.lookup (FbDataStore.createAndMirror env1 st0 "users" [("name", Value.str "A")]
        ["index/:id"]).st "users/doc1"
        = some [("name", Value.str "A"), ("id", Value.str "doc0")]
  ∧ St.lookup (FbDataStore.createAndMirror env1 st0 "users" [("name", Value.str "A")]
        ["index/:id"]).st "users/doc0"
        = some [("name", Value.str "A")] := by decide

/-- C3 (code bug): with every backend primitive succeeding,
`createAndMirror("users", record, ["index/:id"])` creates TWO documents
in the `users` collection — `users/doc0` inside the transaction and
`users/doc1` by the duplicated non-transactional create — returns the
record under the second id `doc1`, and the mirror produced for that
returned id, `index/doc1`, holds the data re-read from the duplicate
primary, whose `id` field is still the first transaction's `doc0`; the
claim of exactly one created document with its id mirrored is violated. -/
theorem c3_createAndMirror_duplicates :
    (FbDataStore.createAndMirror env0 st0 "users" [("name", Value.str "A")] ["index/:id"]).result
        = Except.ok [("name", Value.str "A"), ("id", Value.str "doc1")]
  ∧ ((FbDataStore.createAndMirror env0 st0 "users" [("name", Value.str "A")]
        ["index/:id"]).st.docs.countP (fun kv => isDirectChild "users" kv.1)) = 2
  ∧ St.lookup (FbDataStore.createAndMirror env0 st0 "users" [("name", Value.str "A")]
        ["index/:id"]).st "index/doc0"
        = some [("name", Value.str "A"), ("id", Value.str "doc0")]
  ∧ St.lookup (FbDataStore.createAndMirror env0 st0 "users" [("name", Value.str "A")]
        ["index/:id"]).st "index/doc1"
        = some [("name", Value.str "A"), ("id", Value.str "doc0")] := by decide

end Datastore
